import Mathlib

/-!
Verification of `fate` (dragazo/fate, src/fate.h): a deferred-invocation
guard that binds a zero-argument callable and invokes it at the end of its
lifetime unless released.

Shallow embedding conventions:
* The bound C++ callable type `T` is an abstract Lean type `C`; its runtime
  behaviour when invoked is a function `call : C → Except E Unit`
  (`.error e` models the callable throwing exception `e`).
* Potentially-throwing C++ constructors are modelled as `Except E`-valued
  functions; a C++ member function that may let an exception escape is
  translated to return `Except E _`, one that is `noexcept` to a plain value.
* The generic `fate<T>` stores `alignas(T) char func_buf[sizeof(T)]` plus a
  `bool has_func` flag; the buffer is modelled as `Option C` (`some c` when a
  constructed object resides in it, `none` when it holds no object), with the
  flag kept as a separate field exactly as in the source.
* Observable behaviour is recorded as a trace of events: the callable being
  run, the guard marking itself empty (`has_func = false` / `func = nullptr`),
  and the stored object's destructor running.
-/

/-- Observable events emitted by guard operations.
`run c` records an invocation of the stored callable `c` starting;
`markEmpty` records the guard clearing its armed flag;
`destroy c` records the stored object `c`'s destructor running
(without invoking it). -/
inductive Ev (C : Type) where
  | run (c : C)
  | markEmpty
  | destroy (c : C)
deriving DecidableEq, Repr

/-- The generic guard `fate<T>` (src/fate.h lines 11-113).
`func_buf` models the raw storage buffer: `some c` iff a constructed
callable object `c` currently resides in it; `has_func` is the flag
`bool has_func` marking whether the buffer holds a constructed object. -/
structure Fate (C : Type) where
  func_buf : Option C
  has_func : Bool
deriving DecidableEq, Repr

namespace Fate

/-- Default constructor `fate() : has_func(false)` (line 28): an empty guard;
the `T` constructor is not invoked, the buffer holds nothing. -/
def mkEmpty (C : Type) : Fate C := ⟨none, false⟩

/-- Arming constructor `fate(J&& arg)` (lines 33-40). `construct` is the
result of `T(std::forward<J>(arg))`: `.ok c` when the `T` constructor
produces `c`, `.error e` when it throws `e`. The guard starts with
`has_func = false`; the flag is set only after the placement-new succeeds, so
on failure the guard is empty and the exception propagates (returned in the
second component). -/
def ctor {C E : Type} (construct : Except E C) : Fate C × Option E :=
  match construct with
  | .ok c => (⟨some c, true⟩, none)
  | .error e => (⟨none, false⟩, some e)

/-- `release()` (lines 103-112): if `has_func`, clear the flag and run the
stored object's destructor (without invoking it); otherwise do nothing.
`noexcept`, hence a plain (non-`Except`) function. Returns the new state and
the emitted events. -/
def release {C : Type} (f : Fate C) : Fate C × List (Ev C) :=
  if f.has_func then
    (⟨none, false⟩,
      match f.func_buf with
      | some c => [Ev.markEmpty, Ev.destroy c]
      | none => [Ev.markEmpty])
  else (f, [])

/-- Destructor `~fate()` (lines 44-56): if `has_func`, invoke the stored
callable inside `try { ... } catch (...) {}` — both the normal and the
throwing outcome of `call c` fall through to the same continuation, which is
the `catch`-all discarding the exception — then `release()`. The overall
result is `Except E _` to show which exceptions escape the destructor: none
do, in either branch. -/
def dtor {C E : Type} (call : C → Except E Unit) (f : Fate C) :
    Except E (Fate C × List (Ev C)) :=
  if f.has_func then
    match f.func_buf with
    | some c =>
      match call c with
      | .ok _ =>
        let r := release (⟨some c, true⟩ : Fate C)
        .ok (r.1, Ev.run c :: r.2)
      | .error _ =>
        let r := release (⟨some c, true⟩ : Fate C)
        .ok (r.1, Ev.run c :: r.2)
    | none => .ok (⟨none, false⟩, [Ev.markEmpty])
  else .ok (f, [])

/-- `operator bool()` (line 97): true iff the guard still holds a callable. -/
def toBool {C : Type} (f : Fate C) : Bool := f.has_func

/-- `empty()` (line 100): true iff the guard holds no callable. -/
def isEmpty {C : Type} (f : Fate C) : Bool := !f.has_func

/-- Move constructor `fate(fate&& other)` (lines 71-89). `step c` models
`T(std::move_if_noexcept(*(T*)&other.func_buf))` applied to the source
object `c`: its first component is the outcome of constructing the new
object (`.ok d` success, `.error e` throw), its second the state the source
object is left in by that construction attempt (for a copy this is `c`
itself; a throwing move may leave a residue). On success the destination is
armed and `other.release()` empties the source; on failure the destination
flag was never set, the source is untouched by this function, and the
exception is rethrown (third component). Returns
(destination, source-after, escaped exception, events). -/
def moveCtor {C E : Type} (step : C → Except E C × C) (other : Fate C) :
    Fate C × Fate C × Option E × List (Ev C) :=
  if other.has_func then
    match other.func_buf with
    | some c =>
      match step c with
      | (.ok d, _) =>
        let r := release (⟨some c, true⟩ : Fate C)
        (⟨some d, true⟩, r.1, none, r.2)
      | (.error e, c2) => (⟨none, false⟩, ⟨some c2, true⟩, some e, [])
    | none => (⟨none, false⟩, other, none, [])
  else (⟨none, false⟩, other, none, [])

/-- Whether `fate<T>` is move-assignable. Translated from line 92,
`fate &operator=(fate&&) = delete;`: the move-assignment operator is
explicitly deleted, so no move-assignment operation exists on the class
(copy assignment, line 91, is likewise deleted). -/
def moveAssignable : Bool := false

end Fate

/-- The function-pointer specialization `fate<T(*)()>` (src/fate.h lines
116-169): no buffer, just the member `T(*func)()`, modelled as `Option F`
with `none` for `nullptr`. -/
structure FateFn (F : Type) where
  func : Option F
deriving DecidableEq, Repr

namespace FateFn

/-- Default constructor `fate() : func(nullptr)` (line 128). -/
def mkEmpty (F : Type) : FateFn F := ⟨none⟩

/-- Arming constructor `fate(T(*f)())` (line 131): stores the given pointer,
which may be null (`none`). `noexcept`, never fails. -/
def ctor {F : Type} (f : Option F) : FateFn F := ⟨f⟩

/-- `release()` (line 168): `func = nullptr`. A pointer has no destructor
and the assignment has no externally observable effect, so no events are
emitted. -/
def release {F : Type} (_f : FateFn F) : FateFn F := ⟨none⟩

/-- Destructor `~fate()` (lines 135-147): if `func` is non-null, invoke it
under `try { ... } catch (...) {}` (both outcomes of `call g` continue
identically, discarding any exception), then `release()`. -/
def dtor {F E : Type} (call : F → Except E Unit) (f : FateFn F) :
    Except E (FateFn F × List (Ev F)) :=
  match f.func with
  | some g =>
    match call g with
    | .ok _ => .ok (release (⟨some g⟩ : FateFn F), [Ev.run g])
    | .error _ => .ok (release (⟨some g⟩ : FateFn F), [Ev.run g])
  | none => .ok (f, [])

/-- `operator bool()` (line 162): the pointer converted to `bool`. -/
def toBool {F : Type} (f : FateFn F) : Bool := f.func.isSome

/-- `empty()` (line 165): `!func`. -/
def isEmpty {F : Type} (f : FateFn F) : Bool := !f.func.isSome

/-- Move constructor `fate(fate&& other) : func(other.func)` followed by
`other.release()` (line 154): a non-failing pointer copy plus clearing the
source. `noexcept`, hence no `Except`. Returns (destination, source-after,
events). -/
def moveCtor {F : Type} (other : FateFn F) : FateFn F × FateFn F :=
  (⟨other.func⟩, release other)

end FateFn

/-! ## Observable runs and the whole-lifetime custody model -/

/-- The callables invoked in an event trace, in order of invocation. -/
def runsOf {C : Type} (t : List (Ev C)) : List C :=
  t.filterMap (fun e => match e with | Ev.run c => some c | _ => none)

/-- How many invocations an event trace contains. -/
def runCount {C : Type} (t : List (Ev C)) : Nat := (runsOf t).length

/-- One lifetime operation performed on the guard currently holding the
callable: an explicit `release()` call, or serving as the source of a
move-construction whose transfer attempt behaves as `step` (on success the
destination guard becomes the holder; on failure the source keeps holding). -/
inductive LifeOp (C E : Type) where
  | rel
  | moveOut (step : C → Except E C × C)

/-- Whether a lifetime operation is a `release()` call. -/
def LifeOp.isRel {C E : Type} : LifeOp C E → Bool
  | .rel => true
  | .moveOut _ => false

/-- Apply one lifetime operation to the guard holding the callable, and
follow the callable to whichever guard holds it afterwards. -/
def lifeStep {C E : Type} (f : Fate C) : LifeOp C E → Fate C × List (Ev C)
  | .rel => Fate.release f
  | .moveOut step =>
    let r := Fate.moveCtor step f
    (if r.1.has_func then r.1 else r.2.1, r.2.2.2)

/-- Apply a sequence of lifetime operations, accumulating events. -/
def runOps {C E : Type} (f : Fate C) : List (LifeOp C E) → Fate C × List (Ev C)
  | [] => (f, [])
  | op :: ops =>
    let r := lifeStep f op
    let r2 := runOps r.1 ops
    (r2.1, r.2 ++ r2.2)

/-- The full observable trace of a callable's custody chain: a sequence of
releases and move-outs applied to whichever guard holds the callable, then
destruction of the guard that ends up holding it (destruction of the
emptied guards left behind by moves emits no events, as `~fate()` does
nothing when `has_func` is false). -/
def lifetimeTrace {C E : Type} (call : C → Except E Unit) (f : Fate C)
    (ops : List (LifeOp C E)) : List (Ev C) :=
  match Fate.dtor call (runOps f ops).1 with
  | .ok p => (runOps f ops).2 ++ p.2
  | .error _ => (runOps f ops).2

/-- The move constructor in the case (src/fate.h comment lines 61-63) where
`T` is nothrow move constructible: `std::move_if_noexcept` selects the move
constructor, the transfer cannot fail, and the destination object takes over
the source object's value. -/
def Fate.moveCtorByMove {C E : Type} :
    Fate C → Fate C × Fate C × Option E × List (Ev C) :=
  Fate.moveCtor (fun c => (Except.ok c, c))

/-- The move constructor in the case (src/fate.h comment lines 64-66) where
`T` is not nothrow move constructible but has a copy constructor:
`std::move_if_noexcept` yields a const reference, construction duplicates
the source object via `copy`, and the source object is left exactly as it
was whether or not the duplication succeeds. -/
def Fate.moveCtorByCopy {C E : Type} (copy : C → Except E C) :
    Fate C → Fate C × Fate C × Option E × List (Ev C) :=
  Fate.moveCtor (fun c => (copy c, c))

/-! ## Helper lemmas -/

theorem runCount_append {C : Type} (s t : List (Ev C)) :
    runCount (s ++ t) = runCount s + runCount t := by
  simp [runCount, runsOf, List.filterMap_append]

theorem release_runCount {C : Type} (f : Fate C) :
    runCount (Fate.release f).2 = 0 := by
  cases f with
  | mk b h =>
    cases h <;> cases b <;> simp [Fate.release, runCount, runsOf]

theorem moveCtor_runCount {C E : Type} (step : C → Except E C × C)
    (f : Fate C) : runCount (Fate.moveCtor step f).2.2.2 = 0 := by
  cases f with
  | mk b h =>
    cases h with
    | false => simp [Fate.moveCtor, runCount, runsOf]
    | true =>
      cases b with
      | none => simp [Fate.moveCtor, runCount, runsOf]
      | some c =>
        rcases hs : step c with ⟨e | d, c2⟩ <;>
          simp [Fate.moveCtor, hs, runCount, runsOf, Fate.release]

theorem lifeStep_runCount {C E : Type} (f : Fate C) (op : LifeOp C E) :
    runCount (lifeStep f op).2 = 0 := by
  cases op with
  | rel => exact release_runCount f
  | moveOut step => exact moveCtor_runCount step f

theorem runOps_runCount {C E : Type} (f : Fate C)
    (ops : List (LifeOp C E)) : runCount (runOps f ops).2 = 0 := by
  induction ops generalizing f with
  | nil => simp [runOps, runCount, runsOf]
  | cons op ops ih =>
    simp [runOps, runCount_append, lifeStep_runCount, ih]

theorem dtor_armed {C E : Type} (call : C → Except E Unit) (c : C) :
    Fate.dtor call ⟨some c, true⟩ =
      .ok (⟨none, false⟩, [Ev.run c, Ev.markEmpty, Ev.destroy c]) := by
  cases hc : call c <;> simp [Fate.dtor, Fate.release, hc]

theorem dtor_unarmed {C E : Type} (call : C → Except E Unit) (b : Option C) :
    Fate.dtor call ⟨b, false⟩ = .ok (⟨b, false⟩, []) := by
  simp [Fate.dtor]

theorem dtor_trace_le_one {C E : Type} (call : C → Except E Unit)
    (f : Fate C) (p : Fate C × List (Ev C))
    (h : Fate.dtor call f = Except.ok p) : runCount p.2 ≤ 1 := by
  cases f with
  | mk b hf =>
    cases hf with
    | false =>
      rw [dtor_unarmed] at h
      cases h
      simp [runCount, runsOf]
    | true =>
      cases b with
      | none =>
        simp [Fate.dtor] at h
        cases h
        simp [runCount, runsOf]
      | some c =>
        rw [dtor_armed] at h
        cases h
        simp [runCount, runsOf]

theorem lifeStep_armed {C E : Type} (c : C) (op : LifeOp C E)
    (h : op.isRel = false) :
    ∃ d, (lifeStep ⟨some c, true⟩ op).1 = (⟨some d, true⟩ : Fate C) := by
  cases op with
  | rel => simp [LifeOp.isRel] at h
  | moveOut step =>
    rcases hs : step c with ⟨e | d, c2⟩
    · exact ⟨c2, by simp [lifeStep, Fate.moveCtor, hs]⟩
    · exact ⟨d, by simp [lifeStep, Fate.moveCtor, hs, Fate.release]⟩

theorem runOps_armed {C E : Type} (c : C) (ops : List (LifeOp C E))
    (h : ops.all (fun op => !op.isRel) = true) :
    ∃ d, (runOps (⟨some c, true⟩ : Fate C) ops).1 = (⟨some d, true⟩ : Fate C) := by
  induction ops generalizing c with
  | nil => exact ⟨c, rfl⟩
  | cons op ops ih =>
    simp only [List.all_cons, Bool.and_eq_true, Bool.not_eq_true'] at h
    obtain ⟨d, hd⟩ := lifeStep_armed c op h.1
    obtain ⟨d2, hd2⟩ := ih d (by simpa using h.2)
    exact ⟨d2, by simp [runOps, hd, hd2]⟩

theorem fnDtor_armed {F E : Type} (call : F → Except E Unit) (g : F) :
    FateFn.dtor call ⟨some g⟩ = .ok (⟨none⟩, [Ev.run g]) := by
  cases hc : call g <;> simp [FateFn.dtor, FateFn.release, hc]

/-! ## Claim theorems -/

/-- C1: across a callable's full custody lifetime — any sequence of
`release()` calls and move-outs applied to the guard currently holding it,
followed by destruction of the final holder — the callable runs at most
once; and when no `release()` occurs in the sequence, it runs exactly
once. -/
theorem C1_callable_runs_once {C E : Type} (call : C → Except E Unit)
    (c : C) (ops : List (LifeOp C E)) :
    runCount (lifetimeTrace call ⟨some c, true⟩ ops) ≤ 1 ∧
    (ops.all (fun op => !op.isRel) = true →
      runCount (lifetimeTrace call ⟨some c, true⟩ ops) = 1) := by
  constructor
  · cases h : Fate.dtor call (runOps (⟨some c, true⟩ : Fate C) ops).1 with
    | error e => simp [lifetimeTrace, h, runOps_runCount]
    | ok p =>
      have hp := dtor_trace_le_one call _ p h
      simp [lifetimeTrace, h, runCount_append, runOps_runCount]
      exact hp
  · intro h
    obtain ⟨d, hd⟩ := runOps_armed c ops h
    have h0 := runOps_runCount (⟨some c, true⟩ : Fate C) ops
    simp only [lifetimeTrace, hd, dtor_armed, runCount_append, h0]
    simp [runCount, runsOf]

/-- Witness for C1 at a concrete lifetime: a guard armed with `()` is moved
out once (a nothrow transfer) and the new holder is destroyed; the callable
runs exactly once. -/
theorem C1_callable_runs_once_witness :
    runCount (lifetimeTrace (fun _ : Unit => (Except.ok () : Except Unit Unit))
      (⟨some (), true⟩ : Fate Unit)
      [LifeOp.moveOut (fun c => (Except.ok c, c))]) ≤ 1 ∧
    runCount (lifetimeTrace (fun _ : Unit => (Except.ok () : Except Unit Unit))
      (⟨some (), true⟩ : Fate Unit)
      [LifeOp.moveOut (fun c => (Except.ok c, c))]) = 1 :=
  ⟨(C1_callable_runs_once _ () _).1, (C1_callable_runs_once _ () _).2 rfl⟩

/-- C2 counterexample: the class has no call operator — the destructor is
the only invocation path — and on an armed guard it does not mark the guard
empty before invoking: the very first observable event of destruction is the
callable running, not the guard marking itself empty, so "first transition
to Empty, then invoke" is false on the code. -/
theorem C2_counterexample :
    Fate.dtor (fun _ : Unit => (Except.ok () : Except Unit Unit))
      (⟨some (), true⟩ : Fate Unit) =
      .ok (⟨none, false⟩, [Ev.run (), Ev.markEmpty, Ev.destroy ()]) ∧
    ([Ev.run (), Ev.markEmpty, Ev.destroy ()] : List (Ev Unit)).head? ≠
      some Ev.markEmpty :=
  ⟨rfl, by simp⟩

/-- C2 (amended): the only invocation operation is destruction (there is no
separate call operator). On an Empty guard destruction is a no-op; on an
Armed guard it invokes the stored callable first — while the guard is still
marked armed — then marks the guard empty and destroys the callable's
storage, and the callable runs exactly once during that destruction. -/
theorem C2_destruction_invokes_then_empties {C E : Type}
    (call : C → Except E Unit) (c : C) (b : Option C) :
    Fate.dtor call ⟨some c, true⟩ =
      .ok (⟨none, false⟩, [Ev.run c, Ev.markEmpty, Ev.destroy c]) ∧
    Fate.dtor call ⟨b, false⟩ = .ok (⟨b, false⟩, []) ∧
    runCount [Ev.run c, Ev.markEmpty, Ev.destroy c] = 1 :=
  ⟨dtor_armed call c, dtor_unarmed call b, by simp [runCount, runsOf]⟩

/-- C3 counterexample: the guard does not support move-assignment — the
move-assignment operator is explicitly deleted (src/fate.h line 92), so the
claimed "invoke target's callable, then transfer" assignment semantics do
not exist on the code. -/
theorem C3_counterexample : ¬ (Fate.moveAssignable = true) := by
  simp [Fate.moveAssignable]

/-- C3 (amended): move-assignment (like copy-assignment) is deleted, so no
assignment between guards exists; transfer of a callable is only available
through move-construction, which on a nothrow-movable callable arms the
destination with the source's callable and empties the source. -/
theorem C3_no_move_assignment {C E : Type} (c : C) :
    Fate.moveAssignable = false ∧
    (Fate.moveCtorByMove (⟨some c, true⟩ : Fate C) :
        Fate C × Fate C × Option E × List (Ev C)) =
      (⟨some c, true⟩, ⟨none, false⟩, none, [Ev.markEmpty, Ev.destroy c]) :=
  ⟨rfl, by simp [Fate.moveCtorByMove, Fate.moveCtor, Fate.release]⟩

/-- C4: after a successful move-construction (a transfer step that succeeds
and reproduces the source's value) the destination holds exactly what the
source held, the source is empty, and destroying the moved-from source
invokes nothing; an empty source yields an empty destination; the
function-pointer specialization transfers the pointer and clears the
source likewise. -/
theorem C4_move_construction_transfers {C E F : Type}
    (call : C → Except E Unit) (callF : F → Except E Unit)
    (step : C → Except E C × C) (c r : C) (fo : Option F)
    (h : step c = (Except.ok c, r)) :
    Fate.moveCtor step ⟨some c, true⟩ =
      (⟨some c, true⟩, ⟨none, false⟩, none, [Ev.markEmpty, Ev.destroy c]) ∧
    Fate.moveCtor step (Fate.mkEmpty C) =
      (Fate.mkEmpty C, Fate.mkEmpty C, none, []) ∧
    Fate.dtor call (Fate.mkEmpty C) = .ok (Fate.mkEmpty C, []) ∧
    FateFn.moveCtor ⟨fo⟩ = (⟨fo⟩, ⟨none⟩) ∧
    FateFn.dtor callF (FateFn.mkEmpty F) = .ok (FateFn.mkEmpty F, []) := by
  refine ⟨by simp [Fate.moveCtor, h, Fate.release], ?_, ?_, rfl, rfl⟩
  · simp [Fate.moveCtor, Fate.mkEmpty]
  · simp [Fate.dtor, Fate.mkEmpty]

/-- Witness for C4 at a concrete input: transferring a guard armed with `()`
by a value-preserving nothrow move. -/
theorem C4_move_construction_transfers_witness :
    Fate.moveCtor (fun c : Unit => ((Except.ok c : Except Unit Unit), c))
      ⟨some (), true⟩ =
      (⟨some (), true⟩, ⟨none, false⟩, none, [Ev.markEmpty, Ev.destroy ()]) ∧
    Fate.moveCtor (fun c : Unit => ((Except.ok c : Except Unit Unit), c))
      (Fate.mkEmpty Unit) = (Fate.mkEmpty Unit, Fate.mkEmpty Unit, none, []) ∧
    Fate.dtor (fun _ : Unit => (Except.ok () : Except Unit Unit))
      (Fate.mkEmpty Unit) = .ok (Fate.mkEmpty Unit, []) ∧
    FateFn.moveCtor (⟨some ()⟩ : FateFn Unit) = (⟨some ()⟩, ⟨none⟩) ∧
    FateFn.dtor (fun _ : Unit => (Except.ok () : Except Unit Unit))
      (FateFn.mkEmpty Unit) = .ok (FateFn.mkEmpty Unit, []) :=
  C4_move_construction_transfers _ _ _ () () (some ()) rfl

/-- C5: when the transfer duplicates the source's callable (the
copy-constructor tier of `std::move_if_noexcept`), a failed duplication
leaves the destination empty and the source exactly as it was, with the
failure rethrown — strong exception safety — while a successful duplication
arms the destination with the duplicate and only then empties the source. -/
theorem C5_copy_transfer_strong_safety {C E : Type} (copy : C → Except E C)
    (c d : C) (e : E) :
    (copy c = Except.error e →
      Fate.moveCtorByCopy copy ⟨some c, true⟩ =
        (⟨none, false⟩, ⟨some c, true⟩, some e, [])) ∧
    (copy c = Except.ok d →
      Fate.moveCtorByCopy copy ⟨some c, true⟩ =
        (⟨some d, true⟩, ⟨none, false⟩, none,
          [Ev.markEmpty, Ev.destroy c])) := by
  constructor <;> intro h <;>
    simp [Fate.moveCtorByCopy, Fate.moveCtor, h, Fate.release]

/-- Witness for C5: a duplication that fails with error `0` leaves the
source armed and untouched; one that succeeds transfers and empties the
source. -/
theorem C5_copy_transfer_strong_safety_witness :
    Fate.moveCtorByCopy (fun _ : Unit => (Except.error 0 : Except Nat Unit))
      ⟨some (), true⟩ = (⟨none, false⟩, ⟨some (), true⟩, some 0, []) ∧
    Fate.moveCtorByCopy (fun _ : Unit => (Except.ok () : Except Nat Unit))
      ⟨some (), true⟩ =
      (⟨some (), true⟩, ⟨none, false⟩, none, [Ev.markEmpty, Ev.destroy ()]) :=
  ⟨(C5_copy_transfer_strong_safety _ () () 0).1 rfl,
   (C5_copy_transfer_strong_safety _ () () 0).2 rfl⟩

/-- C6: destroying an armed guard whose callable raises discards the
failure — nothing escapes the destructor (`.ok`) — and leaves the guard
empty with the callable's storage destroyed; a guard with any other
callable behaviour ends up in exactly the same state and trace. -/
theorem C6_invocation_failure_discarded {C E : Type}
    (call call2 : C → Except E Unit) (c : C) (e : E)
    (_h : call c = Except.error e) :
    Fate.dtor call ⟨some c, true⟩ =
      .ok (⟨none, false⟩, [Ev.run c, Ev.markEmpty, Ev.destroy c]) ∧
    Fate.dtor call2 ⟨some c, true⟩ =
      .ok (⟨none, false⟩, [Ev.run c, Ev.markEmpty, Ev.destroy c]) :=
  ⟨dtor_armed call c, dtor_armed call2 c⟩

/-- Witness for C6: a callable that throws `0` when run, next to one that
returns normally; both destructions succeed with the same empty state. -/
theorem C6_invocation_failure_discarded_witness :
    Fate.dtor (fun _ : Unit => (Except.error 0 : Except Nat Unit))
      ⟨some (), true⟩ =
      .ok (⟨none, false⟩, [Ev.run (), Ev.markEmpty, Ev.destroy ()]) ∧
    Fate.dtor (fun _ : Unit => (Except.ok () : Except Nat Unit))
      ⟨some (), true⟩ =
      .ok (⟨none, false⟩, [Ev.run (), Ev.markEmpty, Ev.destroy ()]) :=
  C6_invocation_failure_discarded _ _ () 0 rfl

/-- C7: the arming constructor forwards its argument into the callable's
construction; when that construction succeeds the guard is armed with the
result, and when it throws the guard is left empty — holding nothing — and
the exception propagates to the caller. -/
theorem C7_armed_ctor {C E : Type} (c : C) (e : E) :
    Fate.ctor (Except.ok c : Except E C) = (⟨some c, true⟩, none) ∧
    Fate.ctor (Except.error e : Except E C) = (⟨none, false⟩, some e) ∧
    Fate.toBool (⟨some c, true⟩ : Fate C) = true ∧
    Fate.isEmpty (⟨none, false⟩ : Fate C) = true :=
  ⟨rfl, rfl, rfl, rfl⟩

/-- C8: `release()` on an armed guard destroys the stored callable without
running it and leaves the guard empty; on an empty guard it changes
nothing; the specialization's `release()` just clears the pointer; both are
total (`noexcept`) operations. -/
theorem C8_release {C F : Type} (c : C) (b : Option C) (g : Option F) :
    Fate.release ⟨some c, true⟩ =
      (⟨none, false⟩, [Ev.markEmpty, Ev.destroy c]) ∧
    runCount [Ev.markEmpty, Ev.destroy c] = 0 ∧
    Fate.isEmpty (⟨(none : Option C), false⟩ : Fate C) = true ∧
    Fate.release ⟨b, false⟩ = (⟨b, false⟩, []) ∧
    FateFn.release (⟨g⟩ : FateFn F) = ⟨none⟩ :=
  ⟨by simp [Fate.release], by simp [runCount, runsOf], rfl, by simp [Fate.release], rfl⟩

/-- C9: for a bare function `g`, the generic form armed with `g` and the
function-pointer specialization armed with `g` behave identically at
destruction — each runs `g` exactly once and is empty afterwards — empty
guards of either form invoke nothing, and the specialization's move
transfer is a non-failing pointer copy plus clearing the source. -/
theorem C9_specialization_refines_generic {F E : Type}
    (call : F → Except E Unit) (g : F) (fo : Option F) :
    Fate.dtor call ⟨some g, true⟩ =
      .ok (⟨none, false⟩, [Ev.run g, Ev.markEmpty, Ev.destroy g]) ∧
    FateFn.dtor call ⟨some g⟩ = .ok (⟨none⟩, [Ev.run g]) ∧
    runsOf [Ev.run g, Ev.markEmpty, Ev.destroy g] = [g] ∧
    runsOf [Ev.run g] = [g] ∧
    Fate.isEmpty (⟨none, false⟩ : Fate F) = FateFn.isEmpty (⟨none⟩ : FateFn F) ∧
    Fate.dtor call (Fate.mkEmpty F) = .ok (Fate.mkEmpty F, []) ∧
    FateFn.dtor call (FateFn.mkEmpty F) = .ok (FateFn.mkEmpty F, []) ∧
    FateFn.moveCtor ⟨some g⟩ = (⟨some g⟩, ⟨none⟩) ∧
    FateFn.moveCtor ⟨fo⟩ = (⟨fo⟩, ⟨none⟩) := by
  refine ⟨dtor_armed call g, fnDtor_armed call g, by simp [runsOf],
    by simp [runsOf], rfl, by simp [Fate.dtor, Fate.mkEmpty], rfl, rfl, rfl⟩

/-- C10: in the function-pointer specialization, the arming constructor
applied to a null pointer yields an empty guard: `operator bool` is false,
`empty()` is true, and destruction invokes nothing. -/
theorem C10_null_ctor_empty {F E : Type} (call : F → Except E Unit) :
    FateFn.ctor (none : Option F) = ⟨none⟩ ∧
    FateFn.toBool (FateFn.ctor (none : Option F)) = false ∧
    FateFn.isEmpty (FateFn.ctor (none : Option F)) = true ∧
    FateFn.dtor call (FateFn.ctor (none : Option F)) = .ok (⟨none⟩, []) :=
  ⟨rfl, rfl, rfl, rfl⟩
